import Mathlib

/-!
# Verification of the Pomodoro work-tracker session engine

Shallow embedding of the session lifecycle and timer engine of the
repository (files `src/session.py`, `src/database.py`, `src/config.py`,
`pomodoro.py`).

Modelling conventions:

* All clock readings are integers counting seconds.  A `now : Int`
  parameter models a `datetime.now()` reading; an `rt : Int` parameter
  models a `time.time()` reading.  Both Python functions read the system
  wall clock (adjustable by the operating system); `time.time()` is the
  POSIX epoch clock and is *not* a monotonic clock.  Each operation takes
  as explicit arguments exactly the clock readings it performs.
* ISO timestamp strings stored in the database are modelled by the integer
  instant they denote (the ISO encoding is order- and delta-preserving).
* Absolute instants are aligned so that a day boundary falls on multiples
  of 86400 seconds; `datetime.time()` (time of day) is then `t % 86400`,
  and configured times of day are seconds since midnight.
* Rows of the `sessions` table are a Lean structure; the table is a list
  of rows; SQL `UPDATE ... WHERE id = ?` is a `List.map` guarded on `id`,
  `INSERT` is an append, and `cursor.lastrowid` / autoincrement is the
  `next_id` counter (SQLite guarantees the reloaded row is the inserted
  one, primary keys being unique).
* A Python method that can `raise` is a function returning
  `Except EngineError _ × EngineState`; on the error path the returned
  state is the state at the moment of the `raise` (in this code every
  `raise` happens before any mutation, which these definitions make
  checkable).
-/

/-- Truncating division of a signed number of seconds by 60, matching
Python `int(x / 60)` which truncates toward zero. -/
def pyTrunc60 (x : Int) : Int := if 0 ≤ x then x / 60 else -((-x) / 60)

/-- `sessions.status` column: CHECK(status IN ('active','completed','cancelled')). -/
inductive SessionStatus
  | active
  | completed
  | cancelled
deriving DecidableEq, Repr

/-- One row of the `sessions` table (schema in `database.py`). -/
structure SessionRow where
  id : Int
  task_id : Option Int
  task_description : Option String
  start_time : Int
  end_time : Option Int
  duration_minutes : Option Int
  target_minutes : Int
  intent : Option String
  outcome : Option String
  files_modified : Option String
  working_directory : Option String
  paused_duration : Int
  status : SessionStatus
deriving DecidableEq, Repr

/-- The fields of a `tasks` row that the session engine touches
(`models.py` task with `display_name()` precomputed, and `last_worked`). -/
structure TaskRow where
  id : Int
  displayName : String
  last_worked : Option Int
deriving DecidableEq, Repr

/-- Configuration values resolved at startup (`config.py`).  Times of day
are seconds since midnight. -/
structure Config where
  default_pomodoro_minutes : Int
  idle_warning_minutes : Int
  sleep_gap_threshold_minutes : Int
  work_start : Int
  work_end : Int
  lunch_start : Int
  lunch_end : Int
deriving DecidableEq, Repr

/-- The source defaults: 25-minute pomodoro, 30-minute idle warning,
5-minute sleep-gap threshold, work 09:00-17:00, lunch 12:00-13:00. -/
def defaultConfig : Config :=
  { default_pomodoro_minutes := 25
    idle_warning_minutes := 30
    sleep_gap_threshold_minutes := 5
    work_start := 9 * 3600
    work_end := 17 * 3600
    lunch_start := 12 * 3600
    lunch_end := 13 * 3600 }

/-- `Config.is_work_hours` (config.py): within the work window and not
during lunch.  `t` is a time of day in seconds since midnight. -/
def isWorkHours (cfg : Config) (t : Int) : Bool :=
  if t < cfg.work_start ∨ cfg.work_end ≤ t then false
  else if cfg.lunch_start ≤ t ∧ t < cfg.lunch_end then false
  else true

/-- `datetime.time()` of an absolute instant, under the day-alignment
convention above. -/
def timeOfDay (t : Int) : Int := t % 86400

/-- Errors raised by the engine (`ValueError` in `session.py`, classified
per the spec taxonomy). -/
inductive EngineError
  | alreadyActive
  | noActiveSession
deriving DecidableEq, Repr

/-- Combined persistent store plus `SessionManager` runtime state:
the `sessions` and `tasks` tables, and the in-memory
`current_session`, `last_tick`, `session_start_realtime`, `file_tracker`
fields of `SessionManager.__init__`.  `next_id` is the autoincrement
counter of the `sessions` table. -/
structure EngineState where
  sessions : List SessionRow
  tasks : List TaskRow
  current_session : Option SessionRow
  last_tick : Option Int
  session_start_realtime : Option Int
  file_tracker : Option String
  next_id : Int
deriving DecidableEq, Repr

/-- Fresh process over an empty store: empty tables, no runtime state,
autoincrement starts at 1. -/
def initialState : EngineState :=
  { sessions := []
    tasks := []
    current_session := none
    last_tick := none
    session_start_realtime := none
    file_tracker := none
    next_id := 1 }

/-- `SessionManager.start_session` (session.py:22-84).
`now` is the `datetime.now()` reading, `rt` the `time.time()` reading.
Python truthiness: a `target_minutes` of 0 falls back to the configured
default (`target_minutes or config.default_pomodoro_minutes`), and an
empty `working_directory` string starts no file tracker. -/
def startSession (cfg : Config) (task : Option TaskRow) (intent wd : Option String)
    (targetMinutes : Option Int) (now rt : Int) (s : EngineState) :
    Except EngineError Unit × EngineState :=
  match s.current_session with
  | some _ => (.error .alreadyActive, s)
  | none =>
    let target : Int :=
      match targetMinutes with
      | some v => if v = 0 then cfg.default_pomodoro_minutes else v
      | none => cfg.default_pomodoro_minutes
    let row : SessionRow :=
      { id := s.next_id
        task_id := task.map (·.id)
        task_description := task.map (·.displayName)
        start_time := now
        end_time := none
        duration_minutes := none
        target_minutes := target
        intent := intent
        outcome := none
        files_modified := none
        working_directory := wd
        paused_duration := 0
        status := .active }
    let tracker : Option String :=
      match wd with
      | some d => if d.isEmpty then none else some d
      | none => none
    let tasks' : List TaskRow :=
      match task with
      | some t => s.tasks.map fun tr =>
          if tr.id = t.id then { tr with last_worked := some now } else tr
      | none => s.tasks
    (.ok (),
      { s with
        sessions := s.sessions ++ [row]
        tasks := tasks'
        current_session := some row
        last_tick := some now
        session_start_realtime := some rt
        file_tracker := tracker
        next_id := s.next_id + 1 })

/-- `SessionManager.stop_session` (session.py:86-131): computes
`duration_minutes = int((now - start_dt).total_seconds() / 60)` from the
persisted `start_time`, persists end_time/duration/outcome/files and
`status='completed'`, clears runtime state. -/
def stopSession (outcome filesToLog : Option String) (now : Int) (s : EngineState) :
    Except EngineError Unit × EngineState :=
  match s.current_session with
  | none => (.error .noActiveSession, s)
  | some cs =>
    let duration := pyTrunc60 (now - cs.start_time)
    let sessions' := s.sessions.map fun r =>
      if r.id = cs.id then
        { r with
          end_time := some now
          duration_minutes := some duration
          outcome := outcome
          files_modified := filesToLog
          status := .completed }
      else r
    (.ok (),
      { s with
        sessions := sessions'
        current_session := none
        file_tracker := none
        last_tick := none
        session_start_realtime := none })

/-- `SessionManager.cancel_session` (session.py:133-162): sets end_time
and `status='cancelled'`, leaves `duration_minutes` untouched, clears
runtime state. -/
def cancelSession (now : Int) (s : EngineState) :
    Except EngineError Unit × EngineState :=
  match s.current_session with
  | none => (.error .noActiveSession, s)
  | some cs =>
    let sessions' := s.sessions.map fun r =>
      if r.id = cs.id then
        { r with end_time := some now, status := .cancelled }
      else r
    (.ok (),
      { s with
        sessions := sessions'
        current_session := none
        file_tracker := none
        last_tick := none
        session_start_realtime := none })

/-- `SessionManager.extend_session` (session.py:164-182): adds
`additional_minutes` to the in-memory target and persists the sum. -/
def extendSession (additionalMinutes : Int) (s : EngineState) :
    Except EngineError Unit × EngineState :=
  match s.current_session with
  | none => (.error .noActiveSession, s)
  | some cs =>
    let newTarget := cs.target_minutes + additionalMinutes
    let sessions' := s.sessions.map fun r =>
      if r.id = cs.id then { r with target_minutes := newTarget } else r
    (.ok (),
      { s with
        sessions := sessions'
        current_session := some { cs with target_minutes := newTarget } })

/-- `SessionManager.pause_session` (session.py:184-202): silently returns
when idle; otherwise adds to `paused_duration` and persists the sum. -/
def pauseSession (pauseDurationMinutes : Int) (s : EngineState) :
    Except EngineError Unit × EngineState :=
  match s.current_session with
  | none => (.ok (), s)
  | some cs =>
    let newPaused := cs.paused_duration + pauseDurationMinutes
    let sessions' := s.sessions.map fun r =>
      if r.id = cs.id then { r with paused_duration := newPaused } else r
    (.ok (),
      { s with
        sessions := sessions'
        current_session := some { cs with paused_duration := newPaused } })

/-- `SessionManager.update_tick` (session.py:222-224). -/
def updateTick (now : Int) (s : EngineState) : EngineState :=
  { s with last_tick := some now }

/-- `SessionManager.check_for_sleep_gap` (session.py:204-220): with an
active session and a recorded tick, the gap in fractional minutes is
`(now - last_tick).total_seconds() / 60`; it exceeds the threshold
exactly when the delta in seconds exceeds `60 * threshold`, and the
returned value is `int(gap)`, i.e. the delta truncated to whole minutes. -/
def checkForSleepGap (cfg : Config) (now : Int) (s : EngineState) : Option Int :=
  match s.current_session, s.last_tick with
  | some _, some lt =>
    if 60 * cfg.sleep_gap_threshold_minutes < now - lt then
      some (pyTrunc60 (now - lt))
    else
      none
  | _, _ => none

/-- `SessionManager.get_elapsed_minutes` (session.py:226-239).
`rtNow` is the `time.time()` reading, `now` the `datetime.now()` reading
of the fallback path.  Python truthiness: a stored reading of exactly
`0.0` is falsy, so it takes the fallback path. -/
def getElapsedMinutes (rtNow now : Int) (s : EngineState) : Int :=
  match s.current_session with
  | none => 0
  | some cs =>
    match s.session_start_realtime with
    | some srt =>
      if srt = 0 then pyTrunc60 (now - cs.start_time)
      else pyTrunc60 (rtNow - srt)
    | none => pyTrunc60 (now - cs.start_time)

/-- `SessionManager.get_remaining_minutes` (session.py:241-248). -/
def getRemainingMinutes (rtNow now : Int) (s : EngineState) : Int :=
  match s.current_session with
  | none => 0
  | some cs => max 0 (cs.target_minutes - getElapsedMinutes rtNow now s)

/-- `SessionManager.is_overtime` (session.py:250-255). -/
def isOvertime (rtNow now : Int) (s : EngineState) : Bool :=
  match s.current_session with
  | none => false
  | some cs => decide (cs.target_minutes ≤ getElapsedMinutes rtNow now s)

/-- `SessionManager.get_last_session_time` (session.py:264-276): the
greatest `end_time` among completed sessions with a non-null end
(`ORDER BY end_time DESC LIMIT 1`). -/
def getLastSessionTime (s : EngineState) : Option Int :=
  (s.sessions.filterMap fun r =>
    if r.status = .completed then r.end_time else none).max?

/-- `Database._cleanup_interrupted_sessions` (database.py:120-132): force
every row still `active` to `cancelled` with `end_time = now`. -/
def cleanupInterruptedSessions (now : Int) (rows : List SessionRow) : List SessionRow :=
  rows.map fun r =>
    if r.status = .active then
      { r with status := .cancelled, end_time := some now }
    else r

/-- Process restart: the startup sweep runs over the persisted table and a
fresh `SessionManager` has empty runtime state. -/
def restartProcess (now : Int) (s : EngineState) : EngineState :=
  { s with
    sessions := cleanupInterruptedSessions now s.sessions
    current_session := none
    last_tick := none
    session_start_realtime := none
    file_tracker := none }

/-- `ticks.foldl`: a run of `update_tick` calls at the given instants. -/
def applyTicks (ticks : List Int) (s : EngineState) : EngineState :=
  ticks.foldl (fun st t => updateTick t st) s

/-- Failure classes of the persistent store.  `locked` is an
`sqlite3.OperationalError` whose message contains "locked"; `other` is any
other `OperationalError`; `lockedAfterRetries` is the distinct error
constructed after the retry loop in `Database.get_connection`
(database.py:64-67). -/
inductive DbError
  | locked
  | other
  | lockedAfterRetries
deriving DecidableEq, Repr

/-- The retry loop of `Database.get_connection` (database.py:26-67),
attempt by attempt.  `outcome i` is the result of the `i`-th connection
attempt.  Structured on `remaining = max_retries - attempt`:
`remaining+1 ≥ 1` is `attempt < max_retries` (the `for` guard) and
`1 ≤ remaining` is `attempt < max_retries - 1` (the retry guard).  The
second component collects the backoff sleeps in milliseconds,
`(2 ** attempt) * 0.1` seconds each.  When `remaining` hits 0 (only
possible when `max_retries = 0`, since a retry requires `1 ≤ remaining`)
the final `raise sqlite3.OperationalError("Database locked after ...")`
is reached. -/
def getConnectionGo (outcome : Nat → Except DbError α) :
    Nat → Nat → Except DbError α × List Nat
  | _, 0 => (.error .lockedAfterRetries, [])
  | attempt, remaining + 1 =>
    match outcome attempt with
    | .ok a => (.ok a, [])
    | .error e =>
      if e = .locked ∧ 1 ≤ remaining then
        let rest := getConnectionGo outcome (attempt + 1) remaining
        (rest.1, 100 * 2 ^ attempt :: rest.2)
      else (.error e, [])

/-- `Database.get_connection(max_retries=3)`: run the attempt loop from
attempt 0. -/
def getConnection (outcome : Nat → Except DbError α) (maxRetries : Nat := 3) :
    Except DbError α × List Nat :=
  getConnectionGo outcome 0 maxRetries

/-- The `PomodoroCLI` fields driving the idle check
(pomodoro.py:29-31). -/
structure CLIState where
  last_idle_check : Int
  shown_startup_prompt : Bool
deriving DecidableEq, Repr

/-- What one idle check decides to present. -/
inductive IdleOutcome
  | noSignal
  | startupPrompt
  | idleWarning (minutes : Int)
deriving DecidableEq, Repr

/-- The idle-warning decision: the interactive loop invokes
`check_idle_warning` only when no session is active
(pomodoro.py:472-476), and `PomodoroCLI.check_idle_warning`
(pomodoro.py:623-670) then checks work hours, rate-limits to one check
per 60 seconds, records the check instant, and either fires the one-time
startup prompt (no completed session yet) or the idle warning when
`int((now - last_session_end).total_seconds() / 60)` reaches the
configured threshold.  The user's answer to the prompt (start / snooze)
is outside the modelled decision. -/
def checkIdleWarning (cfg : Config) (es : EngineState) (cli : CLIState) (now : Int) :
    IdleOutcome × CLIState :=
  match es.current_session with
  | some _ => (.noSignal, cli)
  | none =>
    if ¬ (isWorkHours cfg (timeOfDay now) = true) then (.noSignal, cli)
    else if now - cli.last_idle_check < 60 then (.noSignal, cli)
    else
      let cli' : CLIState := { cli with last_idle_check := now }
      match getLastSessionTime es with
      | none =>
        if ¬ cli'.shown_startup_prompt then
          (.startupPrompt, { cli' with shown_startup_prompt := true })
        else (.noSignal, cli')
      | some lastEnd =>
        let idleMinutes := pyTrunc60 (now - lastEnd)
        if cfg.idle_warning_minutes ≤ idleMinutes then
          (.idleWarning idleMinutes, cli')
        else (.noSignal, cli')

/-- States reachable by any sequence of engine operations, process
restarts included.  Operations that raise leave the state component
unchanged, so including their state component unconditionally is sound. -/
inductive Reachable : EngineState → Prop
  | init : Reachable initialState
  | start (cfg : Config) (task : Option TaskRow) (intent wd : Option String)
      (targetMinutes : Option Int) (now rt : Int) {s : EngineState} :
      Reachable s → Reachable (startSession cfg task intent wd targetMinutes now rt s).2
  | stop (outcome filesToLog : Option String) (now : Int) {s : EngineState} :
      Reachable s → Reachable (stopSession outcome filesToLog now s).2
  | cancel (now : Int) {s : EngineState} :
      Reachable s → Reachable (cancelSession now s).2
  | extend (additionalMinutes : Int) {s : EngineState} :
      Reachable s → Reachable (extendSession additionalMinutes s).2
  | pause (pauseDurationMinutes : Int) {s : EngineState} :
      Reachable s → Reachable (pauseSession pauseDurationMinutes s).2
  | tick (now : Int) {s : EngineState} :
      Reachable s → Reachable (updateTick now s)
  | restart (now : Int) {s : EngineState} :
      Reachable s → Reachable (restartProcess now s)

/-- The row invariant of the spec's data model (§3): `active` exactly when
`end_time` is null, `completed` exactly when `duration_minutes` is
non-null. -/
def rowInvariant (r : SessionRow) : Prop :=
  (r.status = .active ↔ r.end_time = none) ∧
  (r.status = .completed ↔ r.duration_minutes ≠ none)

/-- Strengthened inductive invariant: every persisted row satisfies
`rowInvariant`; while a session is held in memory, every persisted row
with its id is active with null end and duration; and persisted ids are
below the autoincrement counter. -/
def engineInvariant (s : EngineState) : Prop :=
  (∀ r ∈ s.sessions, rowInvariant r) ∧
  (∀ cs, s.current_session = some cs → ∀ r ∈ s.sessions, r.id = cs.id →
    r.status = .active ∧ r.end_time = none ∧ r.duration_minutes = none) ∧
  (∀ r ∈ s.sessions, r.id < s.next_id)

/-- Composition of one session run: `start`, a list of `update_tick`
calls, then `stop`. -/
def runStartTicksStop (cfg : Config) (task : Option TaskRow) (intent wd : Option String)
    (targetMinutes : Option Int) (outcome filesToLog : Option String)
    (t0 rt : Int) (ticks : List Int) (t1 : Int) (s : EngineState) : EngineState :=
  (stopSession outcome filesToLog t1
    (applyTicks ticks (startSession cfg task intent wd targetMinutes t0 rt s).2)).2

/-- A concrete state with one active session, started on the default
configuration at wall instant 100000 with `time.time()` reading 1000. -/
def sampleActiveState : EngineState :=
  (startSession defaultConfig none none none none 100000 1000 initialState).2

/-- The session row held by `sampleActiveState`. -/
def sampleActiveRow : SessionRow :=
  { id := 1
    task_id := none
    task_description := none
    start_time := 100000
    end_time := none
    duration_minutes := none
    target_minutes := 25
    intent := none
    outcome := none
    files_modified := none
    working_directory := none
    paused_duration := 0
    status := .active }

/-- `sampleActiveState` after stopping at wall instant 101500 (25 minutes
after the start). -/
def sampleStoppedState : EngineState :=
  (stopSession none none 101500 sampleActiveState).2

/-- The completed row persisted in `sampleStoppedState`. -/
def sampleStoppedRow : SessionRow :=
  { id := 1
    task_id := none
    task_description := none
    start_time := 100000
    end_time := some 101500
    duration_minutes := some 25
    target_minutes := 25
    intent := none
    outcome := none
    files_modified := none
    working_directory := none
    paused_duration := 0
    status := .completed }

/-- The row persisted by the concrete start-ticks-stop run used to
instantiate the duration theorem: started at 100000, stopped at 101530
(25.5 minutes later, truncated to 25). -/
def sampleRunRow : SessionRow :=
  { id := 1
    task_id := none
    task_description := none
    start_time := 100000
    end_time := some 101530
    duration_minutes := some 25
    target_minutes := 25
    intent := none
    outcome := none
    files_modified := none
    working_directory := none
    paused_duration := 0
    status := .completed }

/-- An idle state whose `last_tick` is nonetheless set (the engine was
ticked outside a session). -/
def sampleTickedIdleState : EngineState := updateTick 100 initialState

/-- The idle-monitor example state: one session ran 11:30-11:40 on day
zero (41400 and 42000 seconds) and was stopped, so the last completed
session ended at 11:40. -/
def idleExampleState : EngineState :=
  (stopSession none none 42000
    (startSession defaultConfig none none none none 41400 5000 initialState).2).2

/-- A store whose first three connection attempts fail "locked" and whose
fourth would succeed. -/
def lockedThriceThenOk : Nat → Except DbError Nat :=
  fun i => if i < 3 then .error .locked else .ok 37

/-- A store whose first two connection attempts fail "locked" and whose
third succeeds. -/
def lockedTwiceThenOk : Nat → Except DbError Nat :=
  fun i => if i < 2 then .error .locked else .ok 37

theorem engineInvariant_init : engineInvariant initialState := by
  refine ⟨?_, ?_, ?_⟩ <;> simp [initialState]

theorem engineInvariant_start (cfg : Config) (task : Option TaskRow)
    (intent wd : Option String) (targetMinutes : Option Int) (now rt : Int)
    (s : EngineState) (h : engineInvariant s) :
    engineInvariant (startSession cfg task intent wd targetMinutes now rt s).2 := by
  obtain ⟨h1, h2, h3⟩ := h
  cases hcs : s.current_session with
  | some cs => simp only [startSession, hcs]; exact ⟨h1, h2, h3⟩
  | none =>
    simp only [startSession, hcs]
    refine ⟨?_, ?_, ?_⟩
    · intro r hr
      rcases List.mem_append.1 hr with hold | hnew
      · exact h1 r hold
      · rw [List.mem_singleton.1 hnew]
        constructor <;> simp
    · intro cs hcs' r hr hid
      simp only [Option.some.injEq] at hcs'
      rcases List.mem_append.1 hr with hold | hnew
      · exfalso
        have := h3 r hold
        rw [hid, ← hcs'] at this
        simp at this
      · rw [List.mem_singleton.1 hnew]
        exact ⟨rfl, rfl, rfl⟩
    · intro r hr
      rcases List.mem_append.1 hr with hold | hnew
      · have := h3 r hold
        show r.id < s.next_id + 1
        omega
      · rw [List.mem_singleton.1 hnew]
        show s.next_id < s.next_id + 1
        omega

theorem engineInvariant_stop (outcome filesToLog : Option String) (now : Int)
    (s : EngineState) (h : engineInvariant s) :
    engineInvariant (stopSession outcome filesToLog now s).2 := by
  obtain ⟨h1, h2, h3⟩ := h
  cases hcs : s.current_session with
  | none => simp only [stopSession, hcs]; exact ⟨h1, h2, h3⟩
  | some cs =>
    simp only [stopSession, hcs]
    refine ⟨?_, ?_, ?_⟩
    · intro r hr
      simp only [List.mem_map] at hr
      obtain ⟨r0, hr0, rfl⟩ := hr
      by_cases hid : r0.id = cs.id
      · simp [rowInvariant, hid]
      · simpa [hid] using h1 r0 hr0
    · intro cs' hcs'
      simp at hcs'
    · intro r hr
      simp only [List.mem_map] at hr
      obtain ⟨r0, hr0, rfl⟩ := hr
      by_cases hid : r0.id = cs.id <;> simpa [hid] using h3 r0 hr0

theorem engineInvariant_cancel (now : Int) (s : EngineState)
    (h : engineInvariant s) :
    engineInvariant (cancelSession now s).2 := by
  obtain ⟨h1, h2, h3⟩ := h
  cases hcs : s.current_session with
  | none => simp only [cancelSession, hcs]; exact ⟨h1, h2, h3⟩
  | some cs =>
    simp only [cancelSession, hcs]
    refine ⟨?_, ?_, ?_⟩
    · intro r hr
      simp only [List.mem_map] at hr
      obtain ⟨r0, hr0, rfl⟩ := hr
      by_cases hid : r0.id = cs.id
      · have hdur := (h2 cs hcs r0 hr0 hid).2.2
        simp [rowInvariant, hid, hdur]
      · simpa [hid] using h1 r0 hr0
    · intro cs' hcs'
      simp at hcs'
    · intro r hr
      simp only [List.mem_map] at hr
      obtain ⟨r0, hr0, rfl⟩ := hr
      by_cases hid : r0.id = cs.id <;> simpa [hid] using h3 r0 hr0

theorem engineInvariant_extend (additionalMinutes : Int) (s : EngineState)
    (h : engineInvariant s) :
    engineInvariant (extendSession additionalMinutes s).2 := by
  obtain ⟨h1, h2, h3⟩ := h
  cases hcs : s.current_session with
  | none => simp only [extendSession, hcs]; exact ⟨h1, h2, h3⟩
  | some cs =>
    simp only [extendSession, hcs]
    refine ⟨?_, ?_, ?_⟩
    · intro r hr
      simp only [List.mem_map] at hr
      obtain ⟨r0, hr0, rfl⟩ := hr
      by_cases hid : r0.id = cs.id
      · have hrow := h1 r0 hr0
        simpa [rowInvariant, hid] using hrow
      · simpa [hid] using h1 r0 hr0
    · intro cs' hcs' r hr hid
      simp only [Option.some.injEq] at hcs'
      simp only [List.mem_map] at hr
      obtain ⟨r0, hr0, rfl⟩ := hr
      by_cases hid0 : r0.id = cs.id
      · have := h2 cs hcs r0 hr0 hid0
        simpa [hid0] using this
      · exfalso
        rw [← hcs'] at hid
        simp [hid0] at hid
    · intro r hr
      simp only [List.mem_map] at hr
      obtain ⟨r0, hr0, rfl⟩ := hr
      by_cases hid : r0.id = cs.id <;> simpa [hid] using h3 r0 hr0

theorem engineInvariant_pause (pauseDurationMinutes : Int) (s : EngineState)
    (h : engineInvariant s) :
    engineInvariant (pauseSession pauseDurationMinutes s).2 := by
  obtain ⟨h1, h2, h3⟩ := h
  cases hcs : s.current_session with
  | none => simp only [pauseSession, hcs]; exact ⟨h1, h2, h3⟩
  | some cs =>
    simp only [pauseSession, hcs]
    refine ⟨?_, ?_, ?_⟩
    · intro r hr
      simp only [List.mem_map] at hr
      obtain ⟨r0, hr0, rfl⟩ := hr
      by_cases hid : r0.id = cs.id
      · have hrow := h1 r0 hr0
        simpa [rowInvariant, hid] using hrow
      · simpa [hid] using h1 r0 hr0
    · intro cs' hcs' r hr hid
      simp only [Option.some.injEq] at hcs'
      simp only [List.mem_map] at hr
      obtain ⟨r0, hr0, rfl⟩ := hr
      by_cases hid0 : r0.id = cs.id
      · have := h2 cs hcs r0 hr0 hid0
        simpa [hid0] using this
      · exfalso
        rw [← hcs'] at hid
        simp [hid0] at hid
    · intro r hr
      simp only [List.mem_map] at hr
      obtain ⟨r0, hr0, rfl⟩ := hr
      by_cases hid : r0.id = cs.id <;> simpa [hid] using h3 r0 hr0

theorem engineInvariant_tick (now : Int) (s : EngineState)
    (h : engineInvariant s) : engineInvariant (updateTick now s) := by
  obtain ⟨h1, h2, h3⟩ := h
  exact ⟨h1, h2, h3⟩

theorem engineInvariant_restart (now : Int) (s : EngineState)
    (h : engineInvariant s) : engineInvariant (restartProcess now s) := by
  obtain ⟨h1, h2, h3⟩ := h
  refine ⟨?_, ?_, ?_⟩
  · intro r hr
    simp only [restartProcess, cleanupInterruptedSessions, List.mem_map] at hr
    obtain ⟨r0, hr0, rfl⟩ := hr
    by_cases hact : r0.status = .active
    · have hdur : r0.duration_minutes = none := by
        by_contra hne
        have := (h1 r0 hr0).2.mpr hne
        rw [hact] at this
        exact SessionStatus.noConfusion this
      simp [rowInvariant, hact, hdur]
    · simpa [hact] using h1 r0 hr0
  · intro cs' hcs'
    simp [restartProcess] at hcs'
  · intro r hr
    simp only [restartProcess, cleanupInterruptedSessions, List.mem_map] at hr
    obtain ⟨r0, hr0, rfl⟩ := hr
    by_cases hact : r0.status = .active <;>
      simpa [restartProcess, hact] using h3 r0 hr0

theorem reachable_invariant {s : EngineState} (h : Reachable s) :
    engineInvariant s := by
  induction h with
  | init => exact engineInvariant_init
  | start cfg task intent wd targetMinutes now rt _ ih =>
    exact engineInvariant_start cfg task intent wd targetMinutes now rt _ ih
  | stop outcome filesToLog now _ ih =>
    exact engineInvariant_stop outcome filesToLog now _ ih
  | cancel now _ ih => exact engineInvariant_cancel now _ ih
  | extend additionalMinutes _ ih => exact engineInvariant_extend additionalMinutes _ ih
  | pause pauseDurationMinutes _ ih => exact engineInvariant_pause pauseDurationMinutes _ ih
  | tick now _ ih => exact engineInvariant_tick now _ ih
  | restart now _ ih => exact engineInvariant_restart now _ ih

/-- **C2**: for every session row reachable by any sequence of engine
operations (start, stop, cancel, extend, pause) and the startup
crash-recovery sweep, `status = active` holds iff `end_time` is null and
`status = completed` holds iff `duration_minutes` is not null. -/
theorem status_end_duration_invariant (s : EngineState) (h : Reachable s) :
    ∀ r ∈ s.sessions,
      (r.status = .active ↔ r.end_time = none) ∧
      (r.status = .completed ↔ r.duration_minutes ≠ none) :=
  fun r hr => (reachable_invariant h).1 r hr

theorem status_end_duration_invariant_witness :
    (sampleStoppedRow.status = .active ↔ sampleStoppedRow.end_time = none) ∧
    (sampleStoppedRow.status = .completed ↔
      sampleStoppedRow.duration_minutes ≠ none) :=
  status_end_duration_invariant sampleStoppedState
    (Reachable.stop none none 101500
      (Reachable.start defaultConfig none none none none 100000 1000 Reachable.init))
    sampleStoppedRow (by decide)

/-- **C3**: whenever a session is active, `start` fails with the
already-active error and performs no state mutation: the returned state
(the state at the moment of the raise) is exactly the incoming one, with
the current session, both persisted tables, and all runtime fields
untouched. -/
theorem start_while_active_fails_without_mutation (cfg : Config)
    (task : Option TaskRow) (intent wd : Option String)
    (targetMinutes : Option Int) (now rt : Int) (s : EngineState)
    (cs : SessionRow) (h : s.current_session = some cs) :
    startSession cfg task intent wd targetMinutes now rt s =
      (.error .alreadyActive, s) := by
  simp [startSession, h]

theorem start_while_active_fails_without_mutation_witness :
    startSession defaultConfig none none none none 200000 2000 sampleActiveState =
      (.error .alreadyActive, sampleActiveState) :=
  start_while_active_fails_without_mutation defaultConfig none none none none
    200000 2000 sampleActiveState sampleActiveRow rfl

/-- **C4**: whenever no session is active, `stop`, `cancel` and `extend`
fail with the no-active-session error and mutate nothing, while `pause`
is a silent no-op: it returns without error and mutates nothing. -/
theorem idle_ops_fail_without_mutation (s : EngineState)
    (h : s.current_session = none) (outcome filesToLog : Option String)
    (now now2 : Int) (m k : Int) :
    stopSession outcome filesToLog now s = (.error .noActiveSession, s) ∧
    cancelSession now2 s = (.error .noActiveSession, s) ∧
    extendSession m s = (.error .noActiveSession, s) ∧
    pauseSession k s = (.ok (), s) := by
  refine ⟨?_, ?_, ?_, ?_⟩ <;>
    simp [stopSession, cancelSession, extendSession, pauseSession, h]

theorem idle_ops_fail_without_mutation_witness :
    stopSession none none 500 sampleTickedIdleState =
      (.error .noActiveSession, sampleTickedIdleState) ∧
    cancelSession 600 sampleTickedIdleState =
      (.error .noActiveSession, sampleTickedIdleState) ∧
    extendSession 25 sampleTickedIdleState =
      (.error .noActiveSession, sampleTickedIdleState) ∧
    pauseSession 10 sampleTickedIdleState = (.ok (), sampleTickedIdleState) :=
  idle_ops_fail_without_mutation sampleTickedIdleState rfl none none 500 600 25 10

/-- **C10**: in the idle engine state every read-only query is total and
returns a neutral value: `elapsedMinutes` is 0, `remainingMinutes` is 0,
`isOvertime` is false, and `checkForGap` is the no-gap result, for every
clock reading (in particular however much time passed since the last
tick). -/
theorem idle_queries_return_neutral_values (s : EngineState)
    (h : s.current_session = none) (cfg : Config) (rtNow now gapNow : Int) :
    getElapsedMinutes rtNow now s = 0 ∧
    getRemainingMinutes rtNow now s = 0 ∧
    isOvertime rtNow now s = false ∧
    checkForSleepGap cfg gapNow s = none := by
  refine ⟨?_, ?_, ?_, ?_⟩ <;>
    simp [getElapsedMinutes, getRemainingMinutes, isOvertime, checkForSleepGap, h]

theorem idle_queries_return_neutral_values_witness :
    getElapsedMinutes 999999 999999 sampleTickedIdleState = 0 ∧
    getRemainingMinutes 999999 999999 sampleTickedIdleState = 0 ∧
    isOvertime 999999 999999 sampleTickedIdleState = false ∧
    checkForSleepGap defaultConfig 999999 sampleTickedIdleState = none :=
  idle_queries_return_neutral_values sampleTickedIdleState rfl defaultConfig
    999999 999999 999999

theorem map_target_update_twice (cs : SessionRow) (m1 m2 : Int)
    (l : List SessionRow) :
    ((l.map fun r =>
        if r.id = cs.id then { r with target_minutes := cs.target_minutes + m1 }
        else r).map fun r =>
        if r.id = cs.id then { r with target_minutes := cs.target_minutes + m1 + m2 }
        else r) =
      l.map fun r =>
        if r.id = cs.id then { r with target_minutes := cs.target_minutes + m1 + m2 }
        else r := by
  induction l with
  | nil => rfl
  | cons a t ih =>
    simp only [List.map_cons, ih]
    by_cases hid : a.id = cs.id <;> simp [hid]

/-- **C7**: `extend` accumulates.  One call adds its argument to
`target_minutes` of both the in-memory session and the persisted row and
changes no other field; two successive calls add the sum of their
arguments. -/
theorem extend_accumulates_target (s : EngineState) (cs : SessionRow)
    (h : s.current_session = some cs) (m1 m2 : Int) :
    extendSession m1 s =
      (.ok (), { s with
        sessions := s.sessions.map fun r =>
          if r.id = cs.id then { r with target_minutes := cs.target_minutes + m1 }
          else r
        current_session := some { cs with target_minutes := cs.target_minutes + m1 } }) ∧
    (extendSession m2 (extendSession m1 s).2).2 =
      { s with
        sessions := s.sessions.map fun r =>
          if r.id = cs.id then { r with target_minutes := cs.target_minutes + m1 + m2 }
          else r
        current_session := some { cs with target_minutes := cs.target_minutes + m1 + m2 } } := by
  have h1 : extendSession m1 s =
      (.ok (), { s with
        sessions := s.sessions.map fun r =>
          if r.id = cs.id then { r with target_minutes := cs.target_minutes + m1 }
          else r
        current_session := some { cs with target_minutes := cs.target_minutes + m1 } }) := by
    simp [extendSession, h]
  refine ⟨h1, ?_⟩
  rw [h1]
  simp only [extendSession]
  rw [map_target_update_twice]

theorem extend_accumulates_target_witness :
    extendSession 10 sampleActiveState =
      (.ok (), { sampleActiveState with
        sessions := sampleActiveState.sessions.map fun r =>
          if r.id = sampleActiveRow.id then { r with target_minutes := 25 + 10 }
          else r
        current_session := some { sampleActiveRow with target_minutes := 25 + 10 } }) ∧
    (extendSession 5 (extendSession 10 sampleActiveState).2).2 =
      { sampleActiveState with
        sessions := sampleActiveState.sessions.map fun r =>
          if r.id = sampleActiveRow.id then { r with target_minutes := 25 + 10 + 5 }
          else r
        current_session := some { sampleActiveRow with target_minutes := 25 + 10 + 5 } } :=
  extend_accumulates_target sampleActiveState sampleActiveRow rfl 10 5

theorem applyTicks_preserves_all_but_last_tick (ticks : List Int)
    (s : EngineState) :
    (applyTicks ticks s).sessions = s.sessions ∧
    (applyTicks ticks s).current_session = s.current_session ∧
    (applyTicks ticks s).session_start_realtime = s.session_start_realtime ∧
    (applyTicks ticks s).next_id = s.next_id := by
  induction ticks generalizing s with
  | nil => exact ⟨rfl, rfl, rfl, rfl⟩
  | cons t ts ih =>
    have := ih (updateTick t s)
    simpa [applyTicks, updateTick] using this

/-- **C1**: for every run start → any ticks → stop, the persisted
`duration_minutes` equals the wall-clock delta between the persisted
`start_time` (the start instant `t0`) and the persisted `end_time` (the
stop instant `t1`), truncated to whole minutes, independently of the tick
instants. -/
theorem session_duration_wallclock (cfg : Config) (task : Option TaskRow)
    (intent wd : Option String) (targetMinutes : Option Int)
    (outcome filesToLog : Option String) (t0 rt t1 : Int) (ticks : List Int)
    (s : EngineState) (hidle : s.current_session = none)
    (hfresh : ∀ r ∈ s.sessions, r.id < s.next_id) :
    (∃ r ∈ (runStartTicksStop cfg task intent wd targetMinutes outcome filesToLog
        t0 rt ticks t1 s).sessions, r.id = s.next_id) ∧
    ∀ r ∈ (runStartTicksStop cfg task intent wd targetMinutes outcome filesToLog
        t0 rt ticks t1 s).sessions, r.id = s.next_id →
      r.start_time = t0 ∧ r.end_time = some t1 ∧
      r.duration_minutes = some (pyTrunc60 (t1 - t0)) := by
  obtain ⟨row, hrow, hid, hst, hsess⟩ :
      ∃ row,
        (startSession cfg task intent wd targetMinutes t0 rt s).2.current_session
          = some row ∧
        row.id = s.next_id ∧ row.start_time = t0 ∧
        (startSession cfg task intent wd targetMinutes t0 rt s).2.sessions
          = s.sessions ++ [row] := by
    simp only [startSession, hidle]
    exact ⟨_, rfl, rfl, rfl, rfl⟩
  have htick := applyTicks_preserves_all_but_last_tick ticks
    (startSession cfg task intent wd targetMinutes t0 rt s).2
  have hcur2 :
      (applyTicks ticks
        (startSession cfg task intent wd targetMinutes t0 rt s).2).current_session
        = some row := htick.2.1.trans hrow
  have hsess2 :
      (applyTicks ticks
        (startSession cfg task intent wd targetMinutes t0 rt s).2).sessions
        = s.sessions ++ [row] := htick.1.trans hsess
  have hstop :
      (runStartTicksStop cfg task intent wd targetMinutes outcome filesToLog
          t0 rt ticks t1 s).sessions
        = (s.sessions ++ [row]).map fun r =>
            if r.id = row.id then
              { r with
                end_time := some t1
                duration_minutes := some (pyTrunc60 (t1 - row.start_time))
                outcome := outcome
                files_modified := filesToLog
                status := .completed }
            else r := by
    simp [runStartTicksStop, stopSession, hcur2, hsess2]
  rw [hstop]
  constructor
  · refine ⟨_, List.mem_map_of_mem _
      (List.mem_append_right _ (List.mem_singleton_self row)), ?_⟩
    simp [hid]
  · intro r hr hrid
    simp only [List.mem_map] at hr
    obtain ⟨r0, hr0, rfl⟩ := hr
    rcases List.mem_append.1 hr0 with hold | hnew
    · exfalso
      have hlt := hfresh r0 hold
      have hr0id : r0.id = s.next_id := by
        by_cases hcase : r0.id = row.id <;> simpa [hcase] using hrid
      omega
    · have heq := List.mem_singleton.1 hnew
      subst heq
      rw [if_pos rfl]
      exact ⟨hst, rfl, by rw [hst]⟩

theorem session_duration_wallclock_witness :
    sampleRunRow.start_time = 100000 ∧ sampleRunRow.end_time = some 101530 ∧
    sampleRunRow.duration_minutes = some (pyTrunc60 (101530 - 100000)) :=
  (session_duration_wallclock defaultConfig none none none none none none
      100000 1000 101530 [100030, 100060] initialState rfl
      (by simp [initialState])).2
    sampleRunRow (by decide) rfl

theorem pyTrunc60_mono {a b : Int} (h : a ≤ b) : pyTrunc60 a ≤ pyTrunc60 b := by
  unfold pyTrunc60
  by_cases ha : 0 ≤ a <;> by_cases hb : 0 ≤ b
  · rw [if_pos ha, if_pos hb]
    exact Int.ediv_le_ediv (by norm_num) h
  · exfalso; omega
  · rw [if_neg ha, if_pos hb]
    have h1 : 0 ≤ b / 60 := Int.ediv_nonneg hb (by norm_num)
    have h2 : 0 ≤ (-a) / 60 := Int.ediv_nonneg (by omega) (by norm_num)
    omega
  · rw [if_neg ha, if_neg hb]
    have h1 : (-b) / 60 ≤ (-a) / 60 := Int.ediv_le_ediv (by norm_num) (by omega)
    omega

theorem threshold_le_pyTrunc60 (thr d : Int) (hthr : 0 ≤ thr)
    (hd : 60 * thr < d) : thr ≤ pyTrunc60 d := by
  have hd0 : 0 ≤ d := by omega
  rw [pyTrunc60, if_pos hd0]
  rw [Int.le_ediv_iff_mul_le (by norm_num : (0:Int) < 60)]
  omega

/-- **C5 fails as stated**: with the default threshold of 5 minutes, a
gap of 330 seconds (5.5 minutes) since the last tick exceeds the
threshold, yet `checkForGap` returns the truncated value 5, which is not
strictly greater than the threshold: "returns a value > threshold iff the
delta exceeds the threshold" is false in the only-if-to-if direction. -/
theorem sleep_gap_value_not_above_threshold :
    checkForSleepGap defaultConfig 100330 sampleActiveState = some 5 ∧
    60 * defaultConfig.sleep_gap_threshold_minutes < (100330 : Int) - 100000 ∧
    ¬ ∃ v, checkForSleepGap defaultConfig 100330 sampleActiveState = some v ∧
        defaultConfig.sleep_gap_threshold_minutes < v := by
  refine ⟨rfl, by norm_num [defaultConfig], ?_⟩
  rintro ⟨v, hv, hlt⟩
  rw [show checkForSleepGap defaultConfig 100330 sampleActiveState = some 5
    from rfl] at hv
  injection hv with hv
  rw [← hv] at hlt
  norm_num [defaultConfig] at hlt

/-- **C5 (amended)**: with an active session and a recorded tick,
`checkForGap` signals (returns a non-null value) iff the wall-clock delta
since the last tick exceeds the configured threshold; the signalled value
is the delta truncated to whole minutes, which is at least — but not
always strictly above — the threshold; a 4-minute delta yields no signal
and a 6-minute delta yields the value 6. -/
theorem sleep_gap_signal_iff_threshold_exceeded (cfg : Config)
    (s : EngineState) (cs : SessionRow) (lt : Int)
    (hcs : s.current_session = some cs) (hlt : s.last_tick = some lt)
    (now : Int) (hthr : 0 ≤ cfg.sleep_gap_threshold_minutes) :
    ((checkForSleepGap cfg now s).isSome ↔
      60 * cfg.sleep_gap_threshold_minutes < now - lt) ∧
    (∀ v, checkForSleepGap cfg now s = some v →
      v = pyTrunc60 (now - lt) ∧ cfg.sleep_gap_threshold_minutes ≤ v) ∧
    checkForSleepGap defaultConfig (lt + 240) s = none ∧
    checkForSleepGap defaultConfig (lt + 360) s = some 6 := by
  have h4 : lt + 240 - lt = (240 : Int) := by ring
  have h6 : lt + 360 - lt = (360 : Int) := by ring
  refine ⟨?_, ?_, ?_, ?_⟩
  · by_cases hc : 60 * cfg.sleep_gap_threshold_minutes < now - lt <;>
      simp [checkForSleepGap, hcs, hlt, hc]
  · intro v hv
    by_cases hc : 60 * cfg.sleep_gap_threshold_minutes < now - lt
    · simp only [checkForSleepGap, hcs, hlt, if_pos hc, Option.some.injEq] at hv
      exact ⟨hv.symm, hv ▸ threshold_le_pyTrunc60 _ _ hthr hc⟩
    · simp [checkForSleepGap, hcs, hlt, hc] at hv
  · simp [checkForSleepGap, hcs, hlt, h4, defaultConfig]
  · simp [checkForSleepGap, hcs, hlt, h6, defaultConfig, pyTrunc60]

theorem sleep_gap_signal_iff_threshold_exceeded_witness :
    ((checkForSleepGap defaultConfig 100360 sampleActiveState).isSome ↔
      60 * defaultConfig.sleep_gap_threshold_minutes < (100360 : Int) - 100000) ∧
    ((6 : Int) = pyTrunc60 ((100360 : Int) - 100000) ∧
      defaultConfig.sleep_gap_threshold_minutes ≤ 6) ∧
    checkForSleepGap defaultConfig ((100000 : Int) + 240) sampleActiveState = none ∧
    checkForSleepGap defaultConfig ((100000 : Int) + 360) sampleActiveState = some 6 := by
  have h := sleep_gap_signal_iff_threshold_exceeded defaultConfig sampleActiveState
    sampleActiveRow 100000 rfl rfl 100360 (by norm_num [defaultConfig])
  exact ⟨h.1, h.2.1 6 rfl, h.2.2.1, h.2.2.2⟩

/-- **C6 fails as stated**: `session_start_realtime` is a `time.time()`
reading, i.e. the adjustable system wall clock, not a monotonic clock.
Start at `time.time() = 1000`; two minutes later (reading 1120) the
elapsed counter shows 2; after the system clock is adjusted backward so
that a later call reads 1000 (one tick having happened in between), the
counter drops back to 0 — successive `elapsedMinutes` values decrease
under a backward wall-clock adjustment. -/
theorem elapsed_minutes_decreases_on_clock_rollback :
    getElapsedMinutes 1120 100120 sampleActiveState = 2 ∧
    getElapsedMinutes 1000 100240 (updateTick 100180 sampleActiveState) = 0 ∧
    ¬ (2 : Int) ≤ 0 := by
  refine ⟨rfl, rfl, by norm_num⟩

/-- **C6 (amended)**: `elapsedMinutes` is computed from the `time.time()`
reading captured at start (a wall-clock reading, not a monotonic one).
Across any sequence of ticks it is monotonically non-decreasing provided
the successive `time.time()` readings are non-decreasing — i.e. absent a
backward clock adjustment — and tick calls themselves never change it. -/
theorem elapsed_minutes_monotone_without_rollback (s : EngineState)
    (cs : SessionRow) (srt : Int) (hcs : s.current_session = some cs)
    (hsrt : s.session_start_realtime = some srt) (h0 : ¬ srt = 0)
    (rt1 rt2 now1 now2 : Int) (hle : rt1 ≤ rt2) (ticks : List Int) :
    getElapsedMinutes rt1 now1 s ≤ getElapsedMinutes rt2 now2 s ∧
    getElapsedMinutes rt2 now2 (applyTicks ticks s) =
      getElapsedMinutes rt2 now2 s := by
  have htick := applyTicks_preserves_all_but_last_tick ticks s
  constructor
  · simp only [getElapsedMinutes, hcs, hsrt, if_neg h0]
    exact pyTrunc60_mono (by omega)
  · simp [getElapsedMinutes, htick.2.1, htick.2.2.1, hcs, hsrt]

theorem elapsed_minutes_monotone_without_rollback_witness :
    getElapsedMinutes 1060 100060 sampleActiveState ≤
      getElapsedMinutes 1120 100120 sampleActiveState ∧
    getElapsedMinutes 1120 100120 (applyTicks [100030] sampleActiveState) =
      getElapsedMinutes 1120 100120 sampleActiveState :=
  elapsed_minutes_monotone_without_rollback sampleActiveState sampleActiveRow
    1000 rfl rfl (by norm_num) 1060 1120 100060 100120 (by norm_num) [100030]

/-- **C8 fails as stated**: at 13:15 (47700 s into the day) with no
active session, a time within work hours, and the last completed session
ended at 11:40 (42000 s) — 95 idle minutes, at least the threshold 30 —
a check performed 30 seconds after the previous idle check signals
nothing, because `check_idle_warning` rate-limits itself to one check per
minute: the claimed three conditions are not sufficient for a signal. -/
theorem idle_warning_rate_limited_counterexample :
    idleExampleState.current_session = none ∧
    isWorkHours defaultConfig (timeOfDay 47700) = true ∧
    getLastSessionTime idleExampleState = some 42000 ∧
    defaultConfig.idle_warning_minutes ≤ pyTrunc60 (47700 - 42000) ∧
    (checkIdleWarning defaultConfig idleExampleState ⟨47670, true⟩ 47700).1 =
      .noSignal := by
  refine ⟨rfl, rfl, rfl, by norm_num [defaultConfig, pyTrunc60], rfl⟩

/-- **C8 (amended)**: with at least one completed session on record, the
idle check signals an idle warning iff no session is active, the current
time is within work hours (work window minus lunch window), at least 60
seconds have passed since the previous idle check (the caller-side
per-minute rate limit, through which snoozing also suppresses signals),
and the whole-minute idle time since the last completed session's end
reaches the configured threshold; the signalled value is that idle time.
In particular, with work hours 09:00-17:00, lunch 12:00-13:00, threshold
30 and the last session ended 11:40, an (unrate-limited) check at 12:15
gives no signal and one at 13:15 signals 95 idle minutes. -/
theorem idle_warning_signal_characterization (cfg : Config)
    (es : EngineState) (cli : CLIState) (now lastEnd : Int)
    (hlast : getLastSessionTime es = some lastEnd) :
    (checkIdleWarning cfg es cli now).1 =
      if es.current_session = none ∧ isWorkHours cfg (timeOfDay now) = true ∧
         60 ≤ now - cli.last_idle_check ∧
         cfg.idle_warning_minutes ≤ pyTrunc60 (now - lastEnd)
      then .idleWarning (pyTrunc60 (now - lastEnd))
      else .noSignal := by
  cases hcs : es.current_session with
  | some cs => simp [checkIdleWarning, hcs]
  | none =>
    simp only [checkIdleWarning, hcs, hlast]
    by_cases hwork : isWorkHours cfg (timeOfDay now) = true
    · by_cases hrate : now - cli.last_idle_check < 60
      · have hrate' : ¬ 60 ≤ now - cli.last_idle_check := by omega
        simp [hwork, hrate, hrate']
      · have hrate' : 60 ≤ now - cli.last_idle_check := by omega
        by_cases hidle : cfg.idle_warning_minutes ≤ pyTrunc60 (now - lastEnd)
        · simp [hwork, hrate, hrate', hidle]
        · simp [hwork, hrate, hrate', hidle]
    · simp [hwork]

theorem idle_warning_signal_characterization_witness :
    (checkIdleWarning defaultConfig idleExampleState ⟨0, true⟩ 47700).1 =
      .idleWarning 95 ∧
    (checkIdleWarning defaultConfig idleExampleState ⟨0, true⟩ 44100).1 =
      .noSignal := by
  constructor
  · rw [idle_warning_signal_characterization defaultConfig idleExampleState
      ⟨0, true⟩ 47700 42000 rfl]
    decide
  · rw [idle_warning_signal_characterization defaultConfig idleExampleState
      ⟨0, true⟩ 44100 42000 rfl]
    decide

/-- **C9 fails as stated**: with the bounded policy of 3 attempts, three
consecutive locked failures exhaust the whole budget — after backoffs of
100 ms and 200 ms the third locked failure re-raises the raw locked
error inside the loop; the would-be successful fourth attempt is never
made, and the raised error is also not the distinct
locked-after-retries error (that final raise is unreachable for a
positive attempt budget). -/
theorem retry_three_locked_then_success_fails :
    getConnection lockedThriceThenOk = (.error .locked, [100, 200]) ∧
    (Except.error DbError.locked ≠ (Except.ok 37 : Except DbError Nat)) ∧
    DbError.locked ≠ DbError.lockedAfterRetries := by
  refine ⟨rfl, by simp, by simp⟩

/-- **C9 (amended)**: under the bounded retry policy (up to 3 attempts,
backoff 100 ms then 200 ms, doubling): two consecutive locked failures
followed by a success still return the successful result to the caller
with no visible error; a success on the first attempt returns at once
with no backoff; a non-locked failure propagates immediately without
retry; and locked failures on all three attempts exhaust the budget and
re-raise the raw locked error — the distinct locked-after-retries error
is never what surfaces for this attempt budget. -/
theorem retry_policy_characterization (outcome : Nat → Except DbError Nat)
    (a : Nat) :
    (outcome 0 = .error .locked → outcome 1 = .error .locked →
      outcome 2 = .ok a → getConnection outcome = (.ok a, [100, 200])) ∧
    (outcome 0 = .ok a → getConnection outcome = (.ok a, [])) ∧
    (outcome 0 = .error .other → getConnection outcome = (.error .other, [])) ∧
    (outcome 0 = .error .locked → outcome 1 = .error .locked →
      outcome 2 = .error .locked →
      getConnection outcome = (.error .locked, [100, 200])) := by
  refine ⟨?_, ?_, ?_, ?_⟩
  · intro h0 h1 h2
    simp [getConnection, getConnectionGo, h0, h1, h2]
  · intro h0
    simp [getConnection, getConnectionGo, h0]
  · intro h0
    simp [getConnection, getConnectionGo, h0]
  · intro h0 h1 h2
    simp [getConnection, getConnectionGo, h0, h1, h2]

theorem retry_policy_characterization_witness :
    getConnection lockedTwiceThenOk = (.ok 37, [100, 200]) :=
  (retry_policy_characterization lockedTwiceThenOk 37).1 rfl rfl rfl
